import Mathlib

set_option maxHeartbeats 1000000

/- Shallow embedding of the klipper-st3215 extra: the bus layer `ST3215Bus`
(st3215_bus.py) and the per-servo controller `ST3215Servo` (st3215_servo.py).
Device behaviour (the underlying `st3215` driver) is a parameter: a schedule
mapping the attempt number of an operation to its outcome, and a schedule
mapping the connect-call number to success/failure.  Every externally visible
effect of the bus layer is recorded in a trace; each trace entry also records
whether the instance lock (`self.lock`) was held when the effect happened. -/

/-- One observable effect of the bus layer. -/
inductive BusEvent where
  | connectDev
  | disconnectDev
  | sleep (seconds : ℚ)
  | moveCmd (servoId : ℕ) (position speed accel : ℤ)
  | readPosCmd (servoId : ℕ)
  | primCmd (opName : String)
  | cacheWrite (servoId : ℕ) (position : ℤ)
  deriving DecidableEq, Repr

/-- State of one `ST3215Bus` instance.  `lockDepth` and `trace` are ghost
instrumentation: `lockDepth` counts how many times `self.lock` is currently
held (`threading.Lock` is not reentrant; the code never nests it on the paths
modelled here), and `trace` records each effect paired with the Boolean
"lock held at that moment". -/
structure BusState where
  connected : Bool
  lastError : Option String
  reconnectAttempt : ℕ
  positionCache : List (ℕ × ℤ)
  connectCalls : ℕ
  lockDepth : ℕ
  trace : List (BusEvent × Bool)
  deriving DecidableEq, Repr

def BusState.emit (s : BusState) (e : BusEvent) : BusState :=
  { s with trace := s.trace ++ [(e, decide (0 < s.lockDepth))] }

def BusState.acquire (s : BusState) : BusState :=
  { s with lockDepth := s.lockDepth + 1 }

def BusState.release (s : BusState) : BusState :=
  { s with lockDepth := s.lockDepth - 1 }

/-- Python dict update `self._position_cache[servo_id] = v`. -/
def cacheUpdate : List (ℕ × ℤ) → ℕ → ℤ → List (ℕ × ℤ)
  | [], servoId, v => [(servoId, v)]
  | (k, w) :: rest, servoId, v =>
    if k = servoId then (k, v) :: rest else (k, w) :: cacheUpdate rest servoId v

/-- Python dict lookup `self._position_cache.get(servo_id)`. -/
def cacheLookup : List (ℕ × ℤ) → ℕ → Option ℤ
  | [], _ => none
  | (k, w) :: rest, servoId => if k = servoId then some w else cacheLookup rest servoId

/-- Model of `ST3215Bus.connect`: under `self.lock`, a no-op when already connected;
otherwise tries to open the device (outcome given by `connectOk` at the
current connect-call number).  On success sets `connected`, resets the
reconnect counter and clears `last_error`; on failure records `last_error`
and raises. -/
def ST3215Bus.connect (connectOk : ℕ → Bool) (s : BusState) : BusState × Except String Unit :=
  let s1 := s.acquire
  if s1.connected then
    (s1.release, Except.ok ())
  else
    let k := s1.connectCalls
    let s2 := ({ s1 with connectCalls := k + 1 }).emit BusEvent.connectDev
    if connectOk k then
      (({ s2 with connected := true, reconnectAttempt := 0, lastError := none }).release,
        Except.ok ())
    else
      (({ s2 with connected := false, lastError := some "open failed" }).release,
        Except.error "open failed")

/-- Model of `ST3215Bus.disconnect`: under `self.lock`, best-effort close of the port
(when a handle exists, i.e. when connected) and clears `connected`. -/
def ST3215Bus.disconnect (s : BusState) : BusState :=
  let s1 := s.acquire
  if s1.connected then
    let s2 := s1.emit BusEvent.disconnectDev
    ({ s2 with connected := false }).release
  else
    s1.release

/-- The `try` part of one loop iteration of `_execute_with_retry`:
connect-if-needed (whose failure is caught by the iteration's `except`),
then the device primitive call. -/
def ST3215Bus.attemptOnce {α : Type} (connectOk : ℕ → Bool) (ev : BusEvent)
    (op : ℕ → Except String α) (attempt : ℕ) (s : BusState) : BusState × Except String α :=
  if s.connected then
    (s.emit ev, op attempt)
  else
    match ST3215Bus.connect connectOk s with
    | (s1, Except.ok _) => (s1.emit ev, op attempt)
    | (s1, Except.error e) => (s1, Except.error e)

/-- The fixed backoff of `time.sleep(0.5)`, in seconds. -/
def retryBackoff : ℚ := 1 / 2

/-- The reconnect cycle run between failed attempts: disconnect, a fixed
0.5 s backoff sleep, reconnect, increment of the reconnect counter — all in
an inner `try` whose failure is swallowed (so a failed reconnect leaves the
counter alone and the next iteration reconnects on entry). -/
def ST3215Bus.reconnectCycle (connectOk : ℕ → Bool) (s : BusState) : BusState :=
  let s3 := ST3215Bus.disconnect s
  let s4 := s3.emit (BusEvent.sleep retryBackoff)
  match ST3215Bus.connect connectOk s4 with
  | (s6, Except.ok _) => { s6 with reconnectAttempt := s6.reconnectAttempt + 1 }
  | (s6, Except.error _) => s6

/-- Loop body of `ST3215Bus._execute_with_retry`.  `remaining + 1` is the
number of loop iterations still to run (so `remaining = 0` is the last
attempt, Python's `attempt = max_retries - 1`); `attempt` is the current
attempt index fed to the device schedule `op`.  On loop exhaustion Python
falls off the `for` and returns `None` (`Except.ok none` here; unreachable
for the `max_retries = 3` callers).  The source resets `reconnect_attempt`
to 0 on success only when it is positive (the guard only adds logging;
resetting an already-zero counter is the same state). -/
def ST3215Bus.executeWithRetryAux {α : Type} (connectOk : ℕ → Bool) (ev : BusEvent)
    (op : ℕ → Except String α) (opName : String) (maxRetries : ℕ) :
    ℕ → ℕ → BusState → BusState × Except String (Option α)
  | _, 0, s => (s, Except.ok none)
  | attempt, remaining + 1, s =>
    match ST3215Bus.attemptOnce connectOk ev op attempt s with
    | (s1, Except.ok r) =>
      ({ s1 with reconnectAttempt := 0 }, Except.ok (some r))
    | (s1, Except.error e) =>
      let s2 := { s1 with lastError := some e }
      if remaining = 0 then
        (s2, Except.error (opName ++ " failed after " ++ toString maxRetries ++ " attempts: " ++ e))
      else
        ST3215Bus.executeWithRetryAux connectOk ev op opName maxRetries (attempt + 1) remaining
          (ST3215Bus.reconnectCycle connectOk s2)

/-- Model of `ST3215Bus._execute_with_retry(operation_name, func, max_retries=...)`. -/
def ST3215Bus.executeWithRetry {α : Type} (connectOk : ℕ → Bool) (ev : BusEvent)
    (op : ℕ → Except String α) (opName : String) (maxRetries : ℕ) (s : BusState) :
    BusState × Except String (Option α) :=
  ST3215Bus.executeWithRetryAux connectOk ev op opName maxRetries 0 maxRetries s

/-- Model of `ST3215Bus.move_to`: runs the device `MoveTo` through the retry wrapper,
then (only when it returned) updates the position cache. -/
def ST3215Bus.moveTo (connectOk : ℕ → Bool) (op : ℕ → Except String Unit)
    (servoId : ℕ) (position speed accel : ℤ) (s : BusState) : BusState × Except String Unit :=
  match ST3215Bus.executeWithRetry connectOk (BusEvent.moveCmd servoId position speed accel)
      op "MoveTo" 3 s with
  | (s1, Except.ok _) =>
    let s2 := s1.emit (BusEvent.cacheWrite servoId position)
    ({ s2 with positionCache := cacheUpdate s2.positionCache servoId position }, Except.ok ())
  | (s1, Except.error e) => (s1, Except.error e)

/-- Model of `ST3215Bus.read_position`: runs the device `ReadPosition` through the
retry wrapper; on a non-`None` result updates the cache and returns it; when
the wrapper raises `ST3215BusError`, falls back to the cached value. -/
def ST3215Bus.readPosition (connectOk : ℕ → Bool) (op : ℕ → Except String (Option ℤ))
    (servoId : ℕ) (s : BusState) : BusState × Option ℤ :=
  match ST3215Bus.executeWithRetry connectOk (BusEvent.readPosCmd servoId) op
      "ReadPosition" 3 s with
  | (s1, Except.ok (some (some pos))) =>
    let s2 := s1.emit (BusEvent.cacheWrite servoId pos)
    ({ s2 with positionCache := cacheUpdate s2.positionCache servoId pos }, some pos)
  | (s1, Except.ok (some none)) => (s1, none)
  | (s1, Except.ok none) => (s1, none)
  | (s1, Except.error _) => (s1, cacheLookup s1.positionCache servoId)

/-- A bus state as produced by `ST3215Bus.__init__` (empty cache) or primed
with a given cache, with empty ghost instrumentation. -/
def freshBus (connected : Bool) (cache : List (ℕ × ℤ)) : BusState :=
  { connected := connected, lastError := none, reconnectAttempt := 0,
    positionCache := cache, connectCalls := 0, lockDepth := 0, trace := [] }

/-- Configuration of one `ST3215Servo` (the immutable values parsed in
`ST3215Servo.__init__`). -/
structure ServoConfig where
  servoId : ℕ
  positionMin : ℤ
  positionMax : ℤ
  maxSpeed : ℤ
  maxAccel : ℤ
  temperatureWarning : ℤ
  temperatureCritical : ℤ
  statusUpdateInterval : ℚ
  deriving DecidableEq, Repr

/-- Bounds enforced on the configuration by Klipper's `getint`/`getfloat`
calls and the explicit checks in `ST3215Servo.__init__`. -/
def ServoConfig.valid (cfg : ServoConfig) : Prop :=
  0 ≤ cfg.positionMin ∧ cfg.positionMin < cfg.positionMax ∧ cfg.positionMax ≤ 4095 ∧
  0 ≤ cfg.maxSpeed ∧ cfg.maxSpeed ≤ 3400 ∧ 0 ≤ cfg.maxAccel ∧ cfg.maxAccel ≤ 254 ∧
  0 ≤ cfg.temperatureWarning ∧ cfg.temperatureWarning < cfg.temperatureCritical ∧
  cfg.temperatureCritical ≤ 100 ∧
  (1 : ℚ) / 10 ≤ cfg.statusUpdateInterval ∧ cfg.statusUpdateInterval ≤ 10

/-- Mutable tracked state of one `ST3215Servo`. -/
structure ServoState where
  currentPosition : Option ℤ
  targetPosition : Option ℤ
  isMoving : Bool
  enabled : Bool
  cachedTemperature : Option ℤ
  cachedCurrent : Option ℤ
  cachedVoltage : Option ℤ
  lastStatusUpdate : ℚ
  lastError : Option String
  deriving DecidableEq, Repr

/-- Tracked state right after `ST3215Servo.__init__`. -/
def initServoState : ServoState :=
  { currentPosition := none, targetPosition := none, isMoving := false, enabled := false,
    cachedTemperature := none, cachedCurrent := none, cachedVoltage := none,
    lastStatusUpdate := 0, lastError := none }

/-- Outcome of `ST3215Servo._check_temperature`: `noop` (returns silently),
`warning` (logs a warning and returns), or `fatal` (calls
`printer.invoke_shutdown` and raises). -/
inductive TempCheckResult where
  | noop
  | warning
  | fatal
  deriving DecidableEq, Repr

/-- Model of `ST3215Servo._check_temperature` as a function of the cached temperature. -/
def ST3215Servo.checkTemperature (cfg : ServoConfig) (cachedTemperature : Option ℤ) :
    TempCheckResult :=
  match cachedTemperature with
  | none => TempCheckResult.noop
  | some t =>
    if cfg.temperatureCritical ≤ t then TempCheckResult.fatal
    else if cfg.temperatureWarning ≤ t then TempCheckResult.warning
    else TempCheckResult.noop

/-- Model of `ST3215Servo._validate_position`: raises `ValueError` outside the
configured limits, otherwise returns the position unchanged. -/
def ST3215Servo.validatePosition (cfg : ServoConfig) (position : ℤ) : Except String ℤ :=
  if position < cfg.positionMin then
    Except.error ("Position " ++ toString position ++ " below minimum " ++
      toString cfg.positionMin)
  else if position > cfg.positionMax then
    Except.error ("Position " ++ toString position ++ " above maximum " ++
      toString cfg.positionMax)
  else
    Except.ok position

/-- The `speed` defaulting (`max_speed` when `None`) and clamping
(`max(0, min(3400, speed))`) done by `ST3215Servo.move_to`. -/
def ST3215Servo.resolveSpeed (cfg : ServoConfig) (speed : Option ℤ) : ℤ :=
  let sp := match speed with | none => cfg.maxSpeed | some v => v
  max 0 (min 3400 sp)

/-- The `accel` defaulting (`max_accel` when `None`) and clamping
(`max(0, min(254, accel))`) done by `ST3215Servo.move_to`. -/
def ST3215Servo.resolveAccel (cfg : ServoConfig) (accel : Option ℤ) : ℤ :=
  let ac := match accel with | none => cfg.maxAccel | some v => v
  max 0 (min 254 ac)

/-- The distinct exceptions `ST3215Servo.move_to` can raise: `ValueError`
from validation, the `Exception` raised by the critical-temperature path
(after `invoke_shutdown`), or `ST3215BusError` from the bus. -/
inductive MoveError where
  | rangeError (msg : String)
  | thermalFatal (msg : String)
  | busError (msg : String)
  deriving DecidableEq, Repr

/-- Model of `ST3215Servo.move_to(position, speed=None, accel=None)`: validate the
position, run the temperature guard, default/clamp speed and accel, issue
the bus move, and on success set `target_position` and `is_moving`. -/
def ST3215Servo.moveTo (cfg : ServoConfig) (connectOk : ℕ → Bool)
    (moveOp : ℕ → Except String Unit) (position : ℤ) (speed accel : Option ℤ)
    (sv : ServoState) (bus : BusState) : ServoState × BusState × Except MoveError Unit :=
  match ST3215Servo.validatePosition cfg position with
  | Except.error msg => (sv, bus, Except.error (MoveError.rangeError msg))
  | Except.ok pos =>
    match ST3215Servo.checkTemperature cfg sv.cachedTemperature with
    | TempCheckResult.fatal =>
      (sv, bus, Except.error (MoveError.thermalFatal "temperature critical"))
    | _ =>
      let sendSpeed := ST3215Servo.resolveSpeed cfg speed
      let sendAccel := ST3215Servo.resolveAccel cfg accel
      match ST3215Bus.moveTo connectOk moveOp cfg.servoId pos sendSpeed sendAccel bus with
      | (bus1, Except.ok _) =>
        ({ sv with targetPosition := some pos, isMoving := true }, bus1, Except.ok ())
      | (bus1, Except.error e) => (sv, bus1, Except.error (MoveError.busError e))

/-- Model of `ST3215Servo.stop`: read the current position from the bus; when a value
comes back, record it in `current_position`, command a move to that same
position with speed 0 and accel 0, then set `target_position` and clear
`is_moving`; when the read yields `None`, do nothing. -/
def ST3215Servo.stop (cfg : ServoConfig) (connectOk : ℕ → Bool)
    (readOp : ℕ → Except String (Option ℤ)) (moveOp : ℕ → Except String Unit)
    (sv : ServoState) (bus : BusState) : ServoState × BusState × Except String Unit :=
  match ST3215Bus.readPosition connectOk readOp cfg.servoId bus with
  | (bus1, none) => (sv, bus1, Except.ok ())
  | (bus1, some pos) =>
    let sv1 := { sv with currentPosition := some pos }
    match ST3215Bus.moveTo connectOk moveOp cfg.servoId pos 0 0 bus1 with
    | (bus2, Except.ok _) =>
      ({ sv1 with targetPosition := some pos, isMoving := false }, bus2, Except.ok ())
    | (bus2, Except.error e) => (sv1, bus2, Except.error e)

/-- Model of `ST3215Servo.set_position`: validate, then set both tracked positions
without touching the bus. -/
def ST3215Servo.setPosition (cfg : ServoConfig) (position : ℤ) (sv : ServoState) :
    ServoState × Except String Unit :=
  match ST3215Servo.validatePosition cfg position with
  | Except.error msg => (sv, Except.error msg)
  | Except.ok pos =>
    ({ sv with currentPosition := some pos, targetPosition := some pos }, Except.ok ())

/-- The position part of one poll tick (`_update_status_timer` lines: if the
read value is present, update `current_position` and, when a target is set,
recompute `is_moving` as `abs(pos - target) > 5`). -/
def ST3215Servo.pollPosUpdate (sv : ServoState) (posOpt : Option ℤ) : ServoState :=
  match posOpt with
  | none => sv
  | some pos =>
    let svp := { sv with currentPosition := some pos }
    match svp.targetPosition with
    | none => svp
    | some tgt => { svp with isMoving := decide (5 < |pos - tgt|) }

/-- Model of `ST3215Servo._update_status_timer(eventtime)`: one poll tick.  `readPos`
and `readStatus` stand for the calls `self.bus.read_position` and
`self.bus.read_status` (Python attribute calls that may in principle raise;
the whole body sits in a `try` whose `except` records `last_error`).  The
`readStatus` triple is (temperature, voltage, current).  The temperature
guard run in the telemetry branch sits in its own `try/except: pass`, so its
exception never escapes the tick (its `invoke_shutdown` side effect targets
the printer object, outside the state modelled here).  The tick always
returns `eventtime + status_update_interval` as its next wake time. -/
def ST3215Servo.updateStatusTimer (cfg : ServoConfig)
    (readPos : BusState → BusState × Except String (Option ℤ))
    (readStatus : BusState → BusState × Except String (Option ℤ × Option ℤ × Option ℤ))
    (eventtime : ℚ) (sv : ServoState) (bus : BusState) :
    ServoState × BusState × ℚ :=
  let body : ServoState × BusState × Except String Unit :=
    match readPos bus with
    | (bus1, Except.error e) => (sv, bus1, Except.error e)
    | (bus1, Except.ok posOpt) =>
      let sv1 := ST3215Servo.pollPosUpdate sv posOpt
      if 5 < eventtime - sv1.lastStatusUpdate then
        match readStatus bus1 with
        | (bus2, Except.error e) => (sv1, bus2, Except.error e)
        | (bus2, Except.ok (t, v, c)) =>
          let sv2 := { sv1 with cachedTemperature := t, cachedVoltage := v,
                                cachedCurrent := c, lastStatusUpdate := eventtime }
          (sv2, bus2, Except.ok ())
      else (sv1, bus1, Except.ok ())
  match body with
  | (sv2, bus2, Except.ok _) =>
    ({ sv2 with lastError := none }, bus2, eventtime + cfg.statusUpdateInterval)
  | (sv2, bus2, Except.error e) =>
    ({ sv2 with lastError := some e }, bus2, eventtime + cfg.statusUpdateInterval)

/-- The call `self.bus.read_position` as a poll-tick step over the modelled bus
(`ST3215Bus.read_position` itself never raises). -/
def busReadPosStep (connectOk : ℕ → Bool) (op : ℕ → Except String (Option ℤ))
    (servoId : ℕ) (bus : BusState) : BusState × Except String (Option ℤ) :=
  let r := ST3215Bus.readPosition connectOk op servoId bus
  (r.1, Except.ok r.2)

/-- Both tracked positions, when set, lie within the configured limits. -/
def posInBounds (cfg : ServoConfig) (p : Option ℤ) : Bool :=
  match p with
  | none => true
  | some v => decide (cfg.positionMin ≤ v) && decide (v ≤ cfg.positionMax)

def posInvariant (cfg : ServoConfig) (sv : ServoState) : Bool :=
  posInBounds cfg sv.currentPosition && posInBounds cfg sv.targetPosition

def isSleep : BusEvent → Bool
  | BusEvent.sleep _ => true
  | _ => false

def isMoveCmdEvent : BusEvent → Bool
  | BusEvent.moveCmd _ _ _ _ => true
  | _ => false

/-- Number of device motion commands in a trace. -/
def countMoveCmds (tr : List (BusEvent × Bool)) : ℕ :=
  (tr.filter (fun e => isMoveCmdEvent e.1)).length

/-- The serialization property the spec asserts: every device effect and
cache write in the trace happened while the instance lock was held
(backoff sleeps excepted, they are not I/O). -/
def allBusEffectsHeld (tr : List (BusEvent × Bool)) : Bool :=
  tr.all fun e =>
    match e.1 with
    | BusEvent.sleep _ => true
    | _ => e.2

/-- Connect/disconnect device I/O happened while the lock was held. -/
def devHeld (tr : List (BusEvent × Bool)) : Bool :=
  tr.all fun e =>
    match e.1 with
    | BusEvent.connectDev => e.2
    | BusEvent.disconnectDev => e.2
    | _ => true

/-- Every device primitive call and cache write happened while the lock was
NOT held. -/
def primsUnheld (tr : List (BusEvent × Bool)) : Bool :=
  tr.all fun e =>
    match e.1 with
    | BusEvent.moveCmd _ _ _ _ => !e.2
    | BusEvent.readPosCmd _ => !e.2
    | BusEvent.primCmd _ => !e.2
    | BusEvent.cacheWrite _ _ => !e.2
    | _ => true

/-- Events a retry wrapper emits for its wrapped primitive. -/
def isPrimEvent : BusEvent → Bool
  | BusEvent.moveCmd _ _ _ _ => true
  | BusEvent.readPosCmd _ => true
  | BusEvent.primCmd _ => true
  | _ => false

/-- A representative valid configuration (defaults of `ST3215Servo.__init__`
with `servo_id = 1`). -/
def cfgStd : ServoConfig :=
  { servoId := 1, positionMin := 0, positionMax := 4095, maxSpeed := 3400, maxAccel := 254,
    temperatureWarning := 70, temperatureCritical := 85, statusUpdateInterval := 1 }

/-- Device schedule that fails its first two attempts and succeeds on the
third, returning 42. -/
def flakyOp : ℕ → Except String ℕ :=
  fun k => if k < 2 then Except.error "io failure" else Except.ok 42

/-- Device schedule that fails every attempt. -/
def deadOp : ℕ → Except String ℕ := fun _ => Except.error "io failure"

theorem cacheLookup_cacheUpdate (c : List (ℕ × ℤ)) (servoId : ℕ) (v : ℤ) :
    cacheLookup (cacheUpdate c servoId v) servoId = some v := by
  induction c with
  | nil => simp [cacheUpdate, cacheLookup]
  | cons hd tl ih =>
    obtain ⟨k, w⟩ := hd
    by_cases hk : k = servoId <;> simp [cacheUpdate, cacheLookup, hk, ih]

/-- C1: with a known cached temperature, `_check_temperature` is fatal at or
above `temperature_critical` (inclusive boundary: exactly critical is fatal),
only warns for `temperature_warning ≤ t < temperature_critical` (in
particular at `temperature_critical - 1`), and is a no-op below
`temperature_warning`. -/
theorem C1_check_temperature (cfg : ServoConfig)
    (h : cfg.temperatureWarning < cfg.temperatureCritical) :
    ST3215Servo.checkTemperature cfg (some cfg.temperatureCritical) = TempCheckResult.fatal ∧
    ST3215Servo.checkTemperature cfg (some (cfg.temperatureCritical - 1))
      = TempCheckResult.warning ∧
    (∀ t : ℤ, cfg.temperatureCritical ≤ t →
      ST3215Servo.checkTemperature cfg (some t) = TempCheckResult.fatal) ∧
    (∀ t : ℤ, cfg.temperatureWarning ≤ t → t < cfg.temperatureCritical →
      ST3215Servo.checkTemperature cfg (some t) = TempCheckResult.warning) ∧
    (∀ t : ℤ, t < cfg.temperatureWarning →
      ST3215Servo.checkTemperature cfg (some t) = TempCheckResult.noop) := by
  refine ⟨?_, ?_, ?_, ?_, ?_⟩
  · simp [ST3215Servo.checkTemperature]
  · have h1 : ¬ cfg.temperatureCritical ≤ cfg.temperatureCritical - 1 := by omega
    have h2 : cfg.temperatureWarning ≤ cfg.temperatureCritical - 1 := by omega
    simp [ST3215Servo.checkTemperature, h1, h2]
  · intro t ht
    simp [ST3215Servo.checkTemperature, ht]
  · intro t h1 h2
    have h3 : ¬ cfg.temperatureCritical ≤ t := by omega
    simp [ST3215Servo.checkTemperature, h1, h3]
  · intro t h1
    have h2 : ¬ cfg.temperatureCritical ≤ t := by omega
    have h3 : ¬ cfg.temperatureWarning ≤ t := by omega
    simp [ST3215Servo.checkTemperature, h2, h3]

theorem C1_check_temperature_witness :
    cfgStd.temperatureWarning < cfgStd.temperatureCritical ∧
    (ST3215Servo.checkTemperature cfgStd (some cfgStd.temperatureCritical)
        = TempCheckResult.fatal ∧
      ST3215Servo.checkTemperature cfgStd (some (cfgStd.temperatureCritical - 1))
        = TempCheckResult.warning ∧
      (∀ t : ℤ, cfgStd.temperatureCritical ≤ t →
        ST3215Servo.checkTemperature cfgStd (some t) = TempCheckResult.fatal) ∧
      (∀ t : ℤ, cfgStd.temperatureWarning ≤ t → t < cfgStd.temperatureCritical →
        ST3215Servo.checkTemperature cfgStd (some t) = TempCheckResult.warning) ∧
      (∀ t : ℤ, t < cfgStd.temperatureWarning →
        ST3215Servo.checkTemperature cfgStd (some t) = TempCheckResult.noop)) :=
  ⟨by decide, C1_check_temperature cfgStd (by decide)⟩

/-- C2: for a position outside `[position_min, position_max]`, `move_to`
fails with the `ValueError` from `_validate_position` and returns with the
whole servo state (current/target position, moving and enabled flags) and
the whole bus state (cache, connection, trace — hence no bus call) exactly
as they were. -/
theorem C2_move_to_out_of_range (cfg : ServoConfig) (connectOk : ℕ → Bool)
    (moveOp : ℕ → Except String Unit) (p : ℤ) (speed accel : Option ℤ)
    (sv : ServoState) (bus : BusState)
    (h : p < cfg.positionMin ∨ p > cfg.positionMax) :
    ∃ msg, ST3215Servo.moveTo cfg connectOk moveOp p speed accel sv bus =
      (sv, bus, Except.error (MoveError.rangeError msg)) := by
  by_cases h1 : p < cfg.positionMin
  · exact ⟨"Position " ++ toString p ++ " below minimum " ++ toString cfg.positionMin,
      by simp [ST3215Servo.moveTo, ST3215Servo.validatePosition, h1]⟩
  · have h2 : p > cfg.positionMax := by tauto
    exact ⟨"Position " ++ toString p ++ " above maximum " ++ toString cfg.positionMax,
      by simp [ST3215Servo.moveTo, ST3215Servo.validatePosition, h1, h2]⟩

theorem C2_move_to_out_of_range_witness :
    ((5000 : ℤ) < cfgStd.positionMin ∨ (5000 : ℤ) > cfgStd.positionMax) ∧
    ∃ msg, ST3215Servo.moveTo cfgStd (fun _ => true) (fun _ => Except.ok ()) 5000 none none
        initServoState (freshBus true []) =
      (initServoState, freshBus true [], Except.error (MoveError.rangeError msg)) :=
  ⟨Or.inr (by decide),
    C2_move_to_out_of_range cfgStd (fun _ => true) (fun _ => Except.ok ()) 5000 none none
      initServoState (freshBus true []) (Or.inr (by decide))⟩

/-- C3: `_execute_with_retry` with `max_retries = 3`, started on a connected
bus with a reliable reconnect: against an operation failing its first two
attempts and succeeding on the third it returns the successful result after
exactly two reconnect cycles, each being disconnect, a fixed 0.5 s backoff
sleep, reconnect; against an operation failing all three attempts it raises
`ST3215BusError` wrapping the last underlying cause, again with exactly two
reconnect cycles and no reconnect after the final failed attempt (the trace
ends with the third primitive call). -/
def retryFlakyRun : BusState × Except String (Option ℕ) :=
  ST3215Bus.executeWithRetry (fun _ => true) (BusEvent.primCmd "op") flakyOp "op" 3
    (freshBus true [])

def retryDeadRun : BusState × Except String (Option ℕ) :=
  ST3215Bus.executeWithRetry (fun _ => true) (BusEvent.primCmd "op") deadOp "op" 3
    (freshBus true [])

theorem C3_execute_with_retry :
    (retryFlakyRun.2 = Except.ok (some 42) ∧
     (retryFlakyRun.1.trace.filter (fun e => isSleep e.1)).length = 2 ∧
     retryFlakyRun.1.trace.map Prod.fst =
       [BusEvent.primCmd "op",
        BusEvent.disconnectDev, BusEvent.sleep (1 / 2), BusEvent.connectDev,
        BusEvent.primCmd "op",
        BusEvent.disconnectDev, BusEvent.sleep (1 / 2), BusEvent.connectDev,
        BusEvent.primCmd "op"]) ∧
    (retryDeadRun.2 = Except.error "op failed after 3 attempts: io failure" ∧
     (retryDeadRun.1.trace.filter (fun e => isSleep e.1)).length = 2 ∧
     retryDeadRun.1.trace.map Prod.fst =
       [BusEvent.primCmd "op",
        BusEvent.disconnectDev, BusEvent.sleep (1 / 2), BusEvent.connectDev,
        BusEvent.primCmd "op",
        BusEvent.disconnectDev, BusEvent.sleep (1 / 2), BusEvent.connectDev,
        BusEvent.primCmd "op"]) := by
  exact ⟨⟨rfl, rfl, rfl⟩, ⟨rfl, rfl, rfl⟩⟩

/-- C4: `read_position` on a successful read returns the value and writes it
to the position cache; when every attempt fails (exhausted retries,
`ST3215BusError` swallowed) it returns the cached value for that servo ID —
`2048` when the cache holds `2048` — and `none` when no cache entry exists,
leaving the cache untouched. -/
theorem C4_read_position (servoId : ℕ) (v : ℤ) (cache : List (ℕ × ℤ)) (msg : String) :
    (let r := ST3215Bus.readPosition (fun _ => true) (fun _ => Except.ok (some v)) servoId
        (freshBus true cache)
     r.2 = some v ∧ cacheLookup r.1.positionCache servoId = some v) ∧
    (let r := ST3215Bus.readPosition (fun _ => true) (fun _ => Except.error msg) servoId
        (freshBus true cache)
     r.2 = cacheLookup cache servoId ∧ r.1.positionCache = cache) ∧
    (ST3215Bus.readPosition (fun _ => true) (fun _ => Except.error msg) 1
        (freshBus true [(1, 2048)])).2 = some 2048 ∧
    (ST3215Bus.readPosition (fun _ => true) (fun _ => Except.error msg) 1
        (freshBus true [])).2 = none := by
  refine ⟨⟨rfl, ?_⟩, ⟨rfl, rfl⟩, rfl, rfl⟩
  exact cacheLookup_cacheUpdate cache servoId v

/-- A healthy bus (reconnect always succeeds, first device attempt
succeeds): `ST3215Bus.move_to` returns, writes the commanded position to the
cache, and its trace contains the motion command with exactly the arguments
passed in. -/
theorem moveTo_healthy (op : ℕ → Except String Unit) (hop : op 0 = Except.ok ())
    (servoId : ℕ) (p sp ac : ℤ) (bus : BusState) :
    (ST3215Bus.moveTo (fun _ => true) op servoId p sp ac bus).2 = Except.ok () ∧
    cacheLookup (ST3215Bus.moveTo (fun _ => true) op servoId p sp ac bus).1.positionCache servoId
      = some p ∧
    BusEvent.moveCmd servoId p sp ac ∈
      (ST3215Bus.moveTo (fun _ => true) op servoId p sp ac bus).1.trace.map Prod.fst := by
  by_cases hc : bus.connected
  · simp [ST3215Bus.moveTo, ST3215Bus.executeWithRetry, ST3215Bus.executeWithRetryAux,
      ST3215Bus.attemptOnce, hc, hop, BusState.emit, cacheLookup_cacheUpdate]
  · simp [ST3215Bus.moveTo, ST3215Bus.executeWithRetry, ST3215Bus.executeWithRetryAux,
      ST3215Bus.attemptOnce, ST3215Bus.connect, BusState.acquire, BusState.release,
      BusState.emit, hc, hop, cacheLookup_cacheUpdate]

/-- C5: for an in-range position on a healthy bus (and with the thermal
guard not in its fatal state), `move_to` succeeds; afterwards
`target_position = p`, `is_moving` is true and the bus position cache for
this servo ID holds `p`; the speed/accel actually sent to the bus are the
configured maxima when the arguments are absent, and supplied values are
clamped into `[0, 3400]` / `[0, 254]`. -/
theorem C5_move_to_in_range (cfg : ServoConfig) (moveOp : ℕ → Except String Unit)
    (p : ℤ) (speed accel : Option ℤ) (sv : ServoState) (bus : BusState)
    (hvalid : cfg.valid) (hmin : cfg.positionMin ≤ p) (hmax : p ≤ cfg.positionMax)
    (htmp : ST3215Servo.checkTemperature cfg sv.cachedTemperature ≠ TempCheckResult.fatal)
    (hop : moveOp 0 = Except.ok ()) :
    (ST3215Servo.moveTo cfg (fun _ => true) moveOp p speed accel sv bus).2.2 = Except.ok () ∧
    (ST3215Servo.moveTo cfg (fun _ => true) moveOp p speed accel sv bus).1.targetPosition
      = some p ∧
    (ST3215Servo.moveTo cfg (fun _ => true) moveOp p speed accel sv bus).1.isMoving = true ∧
    cacheLookup
      (ST3215Servo.moveTo cfg (fun _ => true) moveOp p speed accel sv bus).2.1.positionCache
      cfg.servoId = some p ∧
    BusEvent.moveCmd cfg.servoId p (ST3215Servo.resolveSpeed cfg speed)
        (ST3215Servo.resolveAccel cfg accel) ∈
      (ST3215Servo.moveTo cfg (fun _ => true) moveOp p speed accel sv bus).2.1.trace.map
        Prod.fst ∧
    ST3215Servo.resolveSpeed cfg none = cfg.maxSpeed ∧
    ST3215Servo.resolveAccel cfg none = cfg.maxAccel ∧
    (∀ v : ℤ, ST3215Servo.resolveSpeed cfg (some v) = max 0 (min 3400 v) ∧
      0 ≤ ST3215Servo.resolveSpeed cfg (some v) ∧
      ST3215Servo.resolveSpeed cfg (some v) ≤ 3400) ∧
    (∀ v : ℤ, ST3215Servo.resolveAccel cfg (some v) = max 0 (min 254 v) ∧
      0 ≤ ST3215Servo.resolveAccel cfg (some v) ∧
      ST3215Servo.resolveAccel cfg (some v) ≤ 254) := by
  obtain ⟨hc1, hc2, hc3, hc4, hc5, hc6, hc7, _⟩ := hvalid
  have hv1 : ¬ p < cfg.positionMin := by omega
  have hv2 : ¬ p > cfg.positionMax := by omega
  have hrs : ST3215Servo.resolveSpeed cfg none = cfg.maxSpeed := by
    simp only [ST3215Servo.resolveSpeed]
    rw [min_eq_right hc5, max_eq_right hc4]
  have hra : ST3215Servo.resolveAccel cfg none = cfg.maxAccel := by
    simp only [ST3215Servo.resolveAccel]
    rw [min_eq_right hc7, max_eq_right hc6]
  have hclS : ∀ v : ℤ, ST3215Servo.resolveSpeed cfg (some v) = max 0 (min 3400 v) ∧
      0 ≤ ST3215Servo.resolveSpeed cfg (some v) ∧
      ST3215Servo.resolveSpeed cfg (some v) ≤ 3400 :=
    fun v => ⟨rfl, le_max_left 0 _, max_le (by norm_num) (min_le_left _ _)⟩
  have hclA : ∀ v : ℤ, ST3215Servo.resolveAccel cfg (some v) = max 0 (min 254 v) ∧
      0 ≤ ST3215Servo.resolveAccel cfg (some v) ∧
      ST3215Servo.resolveAccel cfg (some v) ≤ 254 :=
    fun v => ⟨rfl, le_max_left 0 _, max_le (by norm_num) (min_le_left _ _)⟩
  obtain ⟨h1, h2, h3⟩ := moveTo_healthy moveOp hop cfg.servoId p
    (ST3215Servo.resolveSpeed cfg speed) (ST3215Servo.resolveAccel cfg accel) bus
  rcases hbus : ST3215Bus.moveTo (fun _ => true) moveOp cfg.servoId p
      (ST3215Servo.resolveSpeed cfg speed) (ST3215Servo.resolveAccel cfg accel) bus with ⟨b1, r⟩
  rw [hbus] at h1 h2 h3
  simp only at h1 h2 h3
  subst h1
  rcases htc : ST3215Servo.checkTemperature cfg sv.cachedTemperature with _ | _ | _
  · simp only [ST3215Servo.moveTo, ST3215Servo.validatePosition, hv1, hv2, htc, if_false,
      ite_false, hbus]
    exact ⟨trivial, trivial, trivial, h2, h3, hrs, hra, hclS, hclA⟩
  · simp only [ST3215Servo.moveTo, ST3215Servo.validatePosition, hv1, hv2, htc, if_false,
      ite_false, hbus]
    exact ⟨trivial, trivial, trivial, h2, h3, hrs, hra, hclS, hclA⟩
  · exact absurd htc htmp

theorem C5_move_to_in_range_witness :
    cfgStd.valid ∧ cfgStd.positionMin ≤ (2048 : ℤ) ∧ (2048 : ℤ) ≤ cfgStd.positionMax ∧
    ST3215Servo.checkTemperature cfgStd initServoState.cachedTemperature
      ≠ TempCheckResult.fatal ∧
    (ST3215Servo.moveTo cfgStd (fun _ => true) (fun _ => Except.ok ()) 2048 none none
      initServoState (freshBus true [])).2.2 = Except.ok () ∧
    (ST3215Servo.moveTo cfgStd (fun _ => true) (fun _ => Except.ok ()) 2048 none none
      initServoState (freshBus true [])).1.targetPosition = some 2048 ∧
    (ST3215Servo.moveTo cfgStd (fun _ => true) (fun _ => Except.ok ()) 2048 none none
      initServoState (freshBus true [])).1.isMoving = true ∧
    cacheLookup (ST3215Servo.moveTo cfgStd (fun _ => true) (fun _ => Except.ok ()) 2048 none none
      initServoState (freshBus true [])).2.1.positionCache cfgStd.servoId = some 2048 :=
  have h := C5_move_to_in_range cfgStd (fun _ => Except.ok ()) 2048 none none initServoState
    (freshBus true [])
    ⟨by decide, by decide, by decide, by decide, by decide, by decide, by decide, by decide,
      by decide, by decide, by norm_num [cfgStd], by norm_num [cfgStd]⟩
    (by decide) (by decide) (by simp [initServoState, ST3215Servo.checkTemperature]) rfl
  ⟨⟨by decide, by decide, by decide, by decide, by decide, by decide, by decide, by decide,
      by decide, by decide, by norm_num [cfgStd], by norm_num [cfgStd]⟩,
    by decide, by decide,
    by simp [initServoState, ST3215Servo.checkTemperature],
    h.1, h.2.1, h.2.2.1, h.2.2.2.1⟩

/-- C10: when `cached_temperature` is absent, `_check_temperature` is a
no-op, so an in-range `move_to` on a healthy bus proceeds with no thermal
check at all: it succeeds and the motion command reaches the bus. -/
theorem C10_move_without_temperature (cfg : ServoConfig) (moveOp : ℕ → Except String Unit)
    (p : ℤ) (speed accel : Option ℤ) (sv : ServoState) (bus : BusState)
    (htmp : sv.cachedTemperature = none)
    (hmin : cfg.positionMin ≤ p) (hmax : p ≤ cfg.positionMax)
    (hop : moveOp 0 = Except.ok ()) :
    ST3215Servo.checkTemperature cfg none = TempCheckResult.noop ∧
    (ST3215Servo.moveTo cfg (fun _ => true) moveOp p speed accel sv bus).2.2 = Except.ok () ∧
    BusEvent.moveCmd cfg.servoId p (ST3215Servo.resolveSpeed cfg speed)
        (ST3215Servo.resolveAccel cfg accel) ∈
      (ST3215Servo.moveTo cfg (fun _ => true) moveOp p speed accel sv bus).2.1.trace.map
        Prod.fst := by
  have hv1 : ¬ p < cfg.positionMin := by omega
  have hv2 : ¬ p > cfg.positionMax := by omega
  obtain ⟨h1, h2, h3⟩ := moveTo_healthy moveOp hop cfg.servoId p
    (ST3215Servo.resolveSpeed cfg speed) (ST3215Servo.resolveAccel cfg accel) bus
  rcases hbus : ST3215Bus.moveTo (fun _ => true) moveOp cfg.servoId p
      (ST3215Servo.resolveSpeed cfg speed) (ST3215Servo.resolveAccel cfg accel) bus with ⟨b1, r⟩
  rw [hbus] at h1 h2 h3
  simp only at h1 h2 h3
  subst h1
  have htc : ST3215Servo.checkTemperature cfg sv.cachedTemperature = TempCheckResult.noop := by
    rw [htmp]; rfl
  simp only [ST3215Servo.moveTo, ST3215Servo.validatePosition, hv1, hv2, htc, if_false,
    ite_false, hbus]
  exact ⟨rfl, trivial, h3⟩

theorem C10_move_without_temperature_witness :
    initServoState.cachedTemperature = none ∧
    cfgStd.positionMin ≤ (100 : ℤ) ∧ (100 : ℤ) ≤ cfgStd.positionMax ∧
    ST3215Servo.checkTemperature cfgStd none = TempCheckResult.noop ∧
    (ST3215Servo.moveTo cfgStd (fun _ => true) (fun _ => Except.ok ()) 100 (some 9999)
      (some 1000) initServoState (freshBus true [])).2.2 = Except.ok () ∧
    BusEvent.moveCmd cfgStd.servoId 100 (ST3215Servo.resolveSpeed cfgStd (some 9999))
        (ST3215Servo.resolveAccel cfgStd (some 1000)) ∈
      (ST3215Servo.moveTo cfgStd (fun _ => true) (fun _ => Except.ok ()) 100 (some 9999)
        (some 1000) initServoState (freshBus true [])).2.1.trace.map Prod.fst :=
  have h := C10_move_without_temperature cfgStd (fun _ => Except.ok ()) 100 (some 9999)
    (some 1000) initServoState (freshBus true []) rfl (by decide) (by decide) rfl
  ⟨rfl, by decide, by decide, h.1, h.2.1, h.2.2⟩

/-- Frame lemma for `ST3215Bus.connect`: it only appends lock-held
`connectDev` events to the trace, preserves the cache and leaves the lock
free again. -/
theorem connect_frame (c : ℕ → Bool) (s : BusState) (h : s.lockDepth = 0) :
    ∃ tl, (ST3215Bus.connect c s).1.trace = s.trace ++ tl ∧
      (ST3215Bus.connect c s).1.lockDepth = 0 ∧
      (ST3215Bus.connect c s).1.positionCache = s.positionCache ∧
      ∀ e ∈ tl, e = (BusEvent.connectDev, true) := by
  unfold ST3215Bus.connect
  by_cases hc : s.connected
  · exact ⟨[], by simp [BusState.acquire, BusState.release, hc, h]⟩
  · by_cases hk : c s.connectCalls <;>
      exact ⟨[(BusEvent.connectDev, true)],
        by simp [BusState.acquire, BusState.release, BusState.emit, hc, hk, h]⟩

/-- Frame lemma for `ST3215Bus.disconnect`. -/
theorem disconnect_frame (s : BusState) (h : s.lockDepth = 0) :
    ∃ tl, (ST3215Bus.disconnect s).trace = s.trace ++ tl ∧
      (ST3215Bus.disconnect s).lockDepth = 0 ∧
      (ST3215Bus.disconnect s).positionCache = s.positionCache ∧
      ∀ e ∈ tl, e = (BusEvent.disconnectDev, true) := by
  unfold ST3215Bus.disconnect
  by_cases hc : s.connected
  · exact ⟨[(BusEvent.disconnectDev, true)],
      by simp [BusState.acquire, BusState.release, BusState.emit, hc, h]⟩
  · exact ⟨[], by simp [BusState.acquire, BusState.release, hc, h]⟩

/-- Frame lemma for one attempt: it appends at most one lock-held
`connectDev` event and the primitive event with the lock not held. -/
theorem attemptOnce_frame {α : Type} (connectOk : ℕ → Bool) (ev : BusEvent)
    (op : ℕ → Except String α) (attempt : ℕ) (s : BusState) (h : s.lockDepth = 0) :
    ∃ tl, (ST3215Bus.attemptOnce connectOk ev op attempt s).1.trace = s.trace ++ tl ∧
      (ST3215Bus.attemptOnce connectOk ev op attempt s).1.lockDepth = 0 ∧
      (ST3215Bus.attemptOnce connectOk ev op attempt s).1.positionCache = s.positionCache ∧
      ∀ e ∈ tl, e = (ev, false) ∨ e = (BusEvent.connectDev, true) := by
  unfold ST3215Bus.attemptOnce
  by_cases hc : s.connected
  · exact ⟨[(ev, false)], by simp [hc, BusState.emit, h]⟩
  · rcases hcon : ST3215Bus.connect connectOk s with ⟨s1, rc⟩
    obtain ⟨tl, h1, h2, h3, h4⟩ := connect_frame connectOk s h
    rw [hcon] at h1 h2 h3
    dsimp only at h1 h2 h3
    cases rc with
    | ok u =>
      refine ⟨tl ++ [(ev, false)], ?_, ?_, ?_, ?_⟩
      · simp [hc, hcon, BusState.emit, h1, h2]
      · simp [hc, hcon, BusState.emit, h2]
      · simp [hc, hcon, BusState.emit, h3]
      · intro e he
        rcases List.mem_append.mp he with he | he
        · exact Or.inr (h4 e he)
        · simp at he
          exact Or.inl he
    | error e =>
      refine ⟨tl, ?_, ?_, ?_, fun x hx => Or.inr (h4 x hx)⟩ <;>
        simp [hc, hcon, h1, h2, h3]

/-- Frame lemma for the reconnect cycle: it appends only lock-held
disconnect/connect device I/O and a lock-free 0.5 s sleep. -/
theorem reconnectCycle_frame (connectOk : ℕ → Bool) (s : BusState) (h : s.lockDepth = 0) :
    ∃ tl, (ST3215Bus.reconnectCycle connectOk s).trace = s.trace ++ tl ∧
      (ST3215Bus.reconnectCycle connectOk s).lockDepth = 0 ∧
      (ST3215Bus.reconnectCycle connectOk s).positionCache = s.positionCache ∧
      ∀ e ∈ tl, e = (BusEvent.connectDev, true) ∨
        e = (BusEvent.disconnectDev, true) ∨ e = (BusEvent.sleep retryBackoff, false) := by
  obtain ⟨tld, hd1, hd2, hd3, hd4⟩ := disconnect_frame s h
  have h4 : ((ST3215Bus.disconnect s).emit (BusEvent.sleep retryBackoff)).lockDepth = 0 := by
    simp [BusState.emit, hd2]
  obtain ⟨tlc, hc1, hc2, hc3, hc4⟩ :=
    connect_frame connectOk ((ST3215Bus.disconnect s).emit (BusEvent.sleep retryBackoff)) h4
  rcases hcon : ST3215Bus.connect connectOk
      ((ST3215Bus.disconnect s).emit (BusEvent.sleep retryBackoff)) with ⟨s6, rc⟩
  rw [hcon] at hc1 hc2 hc3
  dsimp only at hc1 hc2 hc3
  have hemitTr : ((ST3215Bus.disconnect s).emit (BusEvent.sleep retryBackoff)).trace
      = s.trace ++ tld ++ [(BusEvent.sleep retryBackoff, false)] := by
    simp [BusState.emit, hd1, hd2]
  have hemitPc : ((ST3215Bus.disconnect s).emit (BusEvent.sleep retryBackoff)).positionCache
      = s.positionCache := by
    simp [BusState.emit, hd3]
  have hmem : ∀ e ∈ tld ++ [(BusEvent.sleep retryBackoff, false)] ++ tlc,
      e = (BusEvent.connectDev, true) ∨ e = (BusEvent.disconnectDev, true) ∨
        e = (BusEvent.sleep retryBackoff, false) := by
    intro e he
    rcases List.mem_append.mp he with he | he
    · rcases List.mem_append.mp he with he | he
      · exact Or.inr (Or.inl (hd4 e he))
      · rw [List.mem_singleton] at he
        exact Or.inr (Or.inr he)
    · exact Or.inl (hc4 e he)
  refine ⟨tld ++ [(BusEvent.sleep retryBackoff, false)] ++ tlc, ?_, ?_, ?_, hmem⟩ <;>
    · simp only [ST3215Bus.reconnectCycle, hcon]
      cases rc <;> dsimp only <;>
        simp [hc1, hc2, hc3, hemitTr, hemitPc]

/-- Frame lemma for the retry loop: starting with the lock free, it only
appends the primitive event (emitted with the lock NOT held), lock-held
connect/disconnect device I/O, and 0.5 s backoff sleeps; it never touches
the position cache and leaves the lock free. -/
theorem retryAux_frame {α : Type} (connectOk : ℕ → Bool) (ev : BusEvent)
    (op : ℕ → Except String α) (opName : String) (maxRetries : ℕ) :
    ∀ (fuel attempt : ℕ) (s : BusState), s.lockDepth = 0 →
    ∃ tl, (ST3215Bus.executeWithRetryAux connectOk ev op opName maxRetries attempt
        fuel s).1.trace = s.trace ++ tl ∧
      (ST3215Bus.executeWithRetryAux connectOk ev op opName maxRetries attempt
        fuel s).1.lockDepth = 0 ∧
      (ST3215Bus.executeWithRetryAux connectOk ev op opName maxRetries attempt
        fuel s).1.positionCache = s.positionCache ∧
      ∀ e ∈ tl, e = (ev, false) ∨ e = (BusEvent.connectDev, true) ∨
        e = (BusEvent.disconnectDev, true) ∨ e = (BusEvent.sleep retryBackoff, false) := by
  intro fuel
  induction fuel with
  | zero =>
    intro attempt s h
    exact ⟨[], by simp [ST3215Bus.executeWithRetryAux], h, rfl, by simp⟩
  | succ n ih =>
    intro attempt s h
    rcases hat : ST3215Bus.attemptOnce connectOk ev op attempt s with ⟨s1, r⟩
    obtain ⟨tla, ha1, ha2, ha3, ha4⟩ := attemptOnce_frame connectOk ev op attempt s h
    rw [hat] at ha1 ha2 ha3
    dsimp only at ha1 ha2 ha3
    have hmem1 : ∀ e ∈ tla, e = (ev, false) ∨ e = (BusEvent.connectDev, true) ∨
        e = (BusEvent.disconnectDev, true) ∨ e = (BusEvent.sleep retryBackoff, false) := by
      intro e he
      rcases ha4 e he with he' | he'
      · exact Or.inl he'
      · exact Or.inr (Or.inl he')
    unfold ST3215Bus.executeWithRetryAux
    rw [hat]
    cases r with
    | ok u =>
      dsimp only
      exact ⟨tla, ha1, ha2, ha3, hmem1⟩
    | error e =>
      dsimp only
      by_cases hn : n = 0
      · subst hn
        rw [if_pos rfl]
        exact ⟨tla, ha1, ha2, ha3, hmem1⟩
      · rw [if_neg hn]
        have h2 : ({ s1 with lastError := some e } : BusState).lockDepth = 0 := ha2
        obtain ⟨tlr, hr1, hr2, hr3, hr4⟩ :=
          reconnectCycle_frame connectOk { s1 with lastError := some e } h2
        obtain ⟨tli, hi1, hi2, hi3, hi4⟩ :=
          ih (attempt + 1) (ST3215Bus.reconnectCycle connectOk { s1 with lastError := some e })
            hr2
        have htr1 : ({ s1 with lastError := some e } : BusState).trace = s1.trace := rfl
        have hpc1 : ({ s1 with lastError := some e } : BusState).positionCache
            = s1.positionCache := rfl
        rw [htr1] at hr1
        rw [hpc1] at hr3
        refine ⟨tla ++ tlr ++ tli, ?_, ?_, ?_, ?_⟩
        · rw [hi1, hr1, ha1]
          simp [List.append_assoc]
        · exact hi2
        · rw [hi3, hr3, ha3]
        · intro x hx
          rcases List.mem_append.mp hx with hx | hx
          · rcases List.mem_append.mp hx with hx | hx
            · exact hmem1 x hx
            · rcases hr4 x hx with hx' | hx' | hx'
              · exact Or.inr (Or.inl hx')
              · exact Or.inr (Or.inr (Or.inl hx'))
              · exact Or.inr (Or.inr (Or.inr hx'))
          · exact hi4 x hx

theorem devHeld_append (a b : List (BusEvent × Bool)) :
    devHeld (a ++ b) = (devHeld a && devHeld b) := by
  simp [devHeld]

theorem primsUnheld_append (a b : List (BusEvent × Bool)) :
    primsUnheld (a ++ b) = (primsUnheld a && primsUnheld b) := by
  simp [primsUnheld]

/-- Every event of a retry-loop frame list keeps connect/disconnect I/O under
the lock and the primitive event out of it. -/
theorem frameList_lock (ev : BusEvent) (hev : isPrimEvent ev = true) :
    ∀ tl : List (BusEvent × Bool),
    (∀ e ∈ tl, e = (ev, false) ∨ e = (BusEvent.connectDev, true) ∨
      e = (BusEvent.disconnectDev, true) ∨ e = (BusEvent.sleep retryBackoff, false)) →
    devHeld tl = true ∧ primsUnheld tl = true := by
  intro tl
  induction tl with
  | nil => exact fun _ => ⟨rfl, rfl⟩
  | cons x rest ih =>
    intro h
    obtain ⟨ih1, ih2⟩ := ih fun e he => h e (List.mem_cons_of_mem _ he)
    have hx := h x (List.mem_cons_self _ _)
    have hone : devHeld [x] = true ∧ primsUnheld [x] = true := by
      rcases hx with rfl | rfl | rfl | rfl
      · cases ev <;> simp [isPrimEvent] at hev <;> exact ⟨rfl, rfl⟩
      · exact ⟨rfl, rfl⟩
      · exact ⟨rfl, rfl⟩
      · exact ⟨rfl, rfl⟩
    have hsplit1 : devHeld (x :: rest) = (devHeld [x] && devHeld rest) := by
      simp [devHeld]
    have hsplit2 : primsUnheld (x :: rest) = (primsUnheld [x] && primsUnheld rest) := by
      simp [primsUnheld]
    rw [hsplit1, hsplit2, hone.1, hone.2, ih1, ih2]
    exact ⟨rfl, rfl⟩

/-- C9 amended: connect and disconnect do perform their device I/O while
holding the instance lock, but the device primitive calls made through the
retry loop of `_execute_with_retry` (as used by `move_to` and
`read_position`) and every position-cache write are performed with the lock
NOT held. -/
theorem C9_amended_locking (connectOk : ℕ → Bool) (s : BusState)
    (h0 : s.lockDepth = 0) (ht : s.trace = []) :
    devHeld (ST3215Bus.connect connectOk s).1.trace = true ∧
    devHeld (ST3215Bus.disconnect s).trace = true ∧
    (∀ (op : ℕ → Except String Unit) (servoId : ℕ) (p sp ac : ℤ),
      devHeld (ST3215Bus.moveTo connectOk op servoId p sp ac s).1.trace = true ∧
      primsUnheld (ST3215Bus.moveTo connectOk op servoId p sp ac s).1.trace = true) ∧
    (∀ (op : ℕ → Except String (Option ℤ)) (servoId : ℕ),
      devHeld (ST3215Bus.readPosition connectOk op servoId s).1.trace = true ∧
      primsUnheld (ST3215Bus.readPosition connectOk op servoId s).1.trace = true) := by
  refine ⟨?_, ?_, ?_, ?_⟩
  · obtain ⟨tl, h1, h2, h3, h4⟩ := connect_frame connectOk s h0
    rw [h1, ht, List.nil_append]
    exact (frameList_lock (BusEvent.primCmd "x") rfl tl
      fun e he => Or.inr (Or.inl (h4 e he))).1
  · obtain ⟨tl, h1, h2, h3, h4⟩ := disconnect_frame s h0
    rw [h1, ht, List.nil_append]
    exact (frameList_lock (BusEvent.primCmd "x") rfl tl
      fun e he => Or.inr (Or.inr (Or.inl (h4 e he)))).1
  · intro op servoId p sp ac
    obtain ⟨tl, h1, h2, h3, h4⟩ := retryAux_frame connectOk
      (BusEvent.moveCmd servoId p sp ac) op "MoveTo" 3 3 0 s h0
    obtain ⟨hd, hp⟩ := frameList_lock (BusEvent.moveCmd servoId p sp ac) rfl tl h4
    rcases hew : ST3215Bus.executeWithRetry connectOk (BusEvent.moveCmd servoId p sp ac) op
        "MoveTo" 3 s with ⟨s1, r⟩
    have heq : ST3215Bus.executeWithRetryAux connectOk (BusEvent.moveCmd servoId p sp ac) op
        "MoveTo" 3 0 3 s = (s1, r) := hew
    rw [heq] at h1 h2 h3
    dsimp only at h1 h2 h3
    have htr : s1.trace = tl := by rw [h1, ht, List.nil_append]
    unfold ST3215Bus.moveTo
    rw [hew]
    cases r with
    | ok u =>
      dsimp only
      have hemit : (s1.emit (BusEvent.cacheWrite servoId p)).trace
          = s1.trace ++ [(BusEvent.cacheWrite servoId p, false)] := by
        simp [BusState.emit, h2]
      rw [hemit, htr, devHeld_append, primsUnheld_append, hd, hp]
      exact ⟨rfl, rfl⟩
    | error e =>
      dsimp only
      rw [htr]
      exact ⟨hd, hp⟩
  · intro op servoId
    obtain ⟨tl, h1, h2, h3, h4⟩ := retryAux_frame connectOk
      (BusEvent.readPosCmd servoId) op "ReadPosition" 3 3 0 s h0
    obtain ⟨hd, hp⟩ := frameList_lock (BusEvent.readPosCmd servoId) rfl tl h4
    rcases hew : ST3215Bus.executeWithRetry connectOk (BusEvent.readPosCmd servoId) op
        "ReadPosition" 3 s with ⟨s1, r⟩
    have heq : ST3215Bus.executeWithRetryAux connectOk (BusEvent.readPosCmd servoId) op
        "ReadPosition" 3 0 3 s = (s1, r) := hew
    rw [heq] at h1 h2 h3
    dsimp only at h1 h2 h3
    have htr : s1.trace = tl := by rw [h1, ht, List.nil_append]
    unfold ST3215Bus.readPosition
    rw [hew]
    cases r with
    | ok v =>
      match v with
      | some (some pos) =>
        dsimp only
        have hemit : (s1.emit (BusEvent.cacheWrite servoId pos)).trace
            = s1.trace ++ [(BusEvent.cacheWrite servoId pos, false)] := by
          simp [BusState.emit, h2]
        rw [hemit, htr, devHeld_append, primsUnheld_append, hd, hp]
        exact ⟨rfl, rfl⟩
      | some none =>
        dsimp only
        rw [htr]
        exact ⟨hd, hp⟩
      | none =>
        dsimp only
        rw [htr]
        exact ⟨hd, hp⟩
    | error e =>
      dsimp only
      rw [htr]
      exact ⟨hd, hp⟩

theorem pollPosUpdate_lastStatusUpdate (sv : ServoState) (posOpt : Option ℤ) :
    (ST3215Servo.pollPosUpdate sv posOpt).lastStatusUpdate = sv.lastStatusUpdate := by
  unfold ST3215Servo.pollPosUpdate
  cases posOpt with
  | none => rfl
  | some pos =>
    dsimp only
    rcases htp : sv.targetPosition with _ | tgt <;> simp [htp]

/-- Reduction of a poll tick whose position read raises: the exception is
recorded in `last_error`, nothing else of the servo state changes, and the
tick still returns the fixed next wake time. -/
theorem updateStatusTimer_error (cfg : ServoConfig)
    (readPos : BusState → BusState × Except String (Option ℤ))
    (readStatus : BusState → BusState × Except String (Option ℤ × Option ℤ × Option ℤ))
    (eventtime : ℚ) (sv : ServoState) (bus bus1 : BusState) (e : String)
    (hrp : readPos bus = (bus1, Except.error e)) :
    ST3215Servo.updateStatusTimer cfg readPos readStatus eventtime sv bus
      = ({ sv with lastError := some e }, bus1, eventtime + cfg.statusUpdateInterval) := by
  unfold ST3215Servo.updateStatusTimer
  rw [hrp]

/-- Reduction of a poll tick with a successful position read and the
telemetry refresh not yet due. -/
theorem updateStatusTimer_notDue (cfg : ServoConfig)
    (readPos : BusState → BusState × Except String (Option ℤ))
    (readStatus : BusState → BusState × Except String (Option ℤ × Option ℤ × Option ℤ))
    (eventtime : ℚ) (sv : ServoState) (bus bus1 : BusState) (posOpt : Option ℤ)
    (hrp : readPos bus = (bus1, Except.ok posOpt))
    (hdue : ¬ (5 < eventtime - sv.lastStatusUpdate)) :
    ST3215Servo.updateStatusTimer cfg readPos readStatus eventtime sv bus
      = ({ ST3215Servo.pollPosUpdate sv posOpt with lastError := none }, bus1,
          eventtime + cfg.statusUpdateInterval) := by
  have hdue' : ¬ (5 < eventtime - (ST3215Servo.pollPosUpdate sv posOpt).lastStatusUpdate) := by
    rw [pollPosUpdate_lastStatusUpdate]
    exact hdue
  unfold ST3215Servo.updateStatusTimer
  rw [hrp]
  dsimp only
  rw [if_neg hdue']

/-- The telemetry-refresh part of a poll tick. -/
def ST3215Servo.pollTelemetry (sv : ServoState) (eventtime : ℚ) (t v c : Option ℤ) : ServoState :=
  { sv with cachedTemperature := t, cachedVoltage := v, cachedCurrent := c, lastStatusUpdate := eventtime }

/-- Reduction of a poll tick with a successful position read, the telemetry
refresh due, and a successful telemetry read. -/
theorem updateStatusTimer_due (cfg : ServoConfig)
    (readPos : BusState → BusState × Except String (Option ℤ))
    (readStatus : BusState → BusState × Except String (Option ℤ × Option ℤ × Option ℤ))
    (eventtime : ℚ) (sv : ServoState) (bus bus1 bus2 : BusState) (posOpt : Option ℤ)
    (t v c : Option ℤ)
    (hrp : readPos bus = (bus1, Except.ok posOpt))
    (hdue : 5 < eventtime - sv.lastStatusUpdate)
    (hrs : readStatus bus1 = (bus2, Except.ok (t, v, c))) :
    ST3215Servo.updateStatusTimer cfg readPos readStatus eventtime sv bus
      = ({ ST3215Servo.pollTelemetry (ST3215Servo.pollPosUpdate sv posOpt) eventtime t v c with lastError := none }, bus2, eventtime + cfg.statusUpdateInterval) := by
  have hdue' : 5 < eventtime - (ST3215Servo.pollPosUpdate sv posOpt).lastStatusUpdate := by
    rw [pollPosUpdate_lastStatusUpdate]
    exact hdue
  unfold ST3215Servo.updateStatusTimer
  rw [hrp]
  dsimp only
  rw [if_pos hdue', hrs]
  rfl

/-- A configuration with a restricted travel range, used to exhibit an
out-of-range device reading. -/
def cfgC7 : ServoConfig :=
  { servoId := 1, positionMin := 500, positionMax := 3500, maxSpeed := 3400, maxAccel := 254,
    temperatureWarning := 70, temperatureCritical := 85, statusUpdateInterval := 1 }

/-- A servo state whose tracked positions are well inside the range. -/
def svC7 : ServoState :=
  { initServoState with currentPosition := some 2048, targetPosition := some 2048 }

/-- C7 counterexample: one poll tick whose bus read reports position 4000 —
outside the configured range [500, 3500] — stores 4000 into
`current_position` without any validation, breaking the claimed invariant
that both tracked positions always stay within
`[position_min, position_max]`. -/
theorem C7_counterexample :
    posInvariant cfgC7 svC7 = true ∧
    (ST3215Servo.updateStatusTimer cfgC7
      (busReadPosStep (fun _ => true) (fun _ => Except.ok (some 4000)) 1)
      (fun b => (b, Except.ok (none, none, none))) 0 svC7 (freshBus true [])).1.currentPosition
      = some 4000 ∧
    posInvariant cfgC7
      (ST3215Servo.updateStatusTimer cfgC7
        (busReadPosStep (fun _ => true) (fun _ => Except.ok (some 4000)) 1)
        (fun b => (b, Except.ok (none, none, none))) 0 svC7 (freshBus true [])).1 = false := by
  have hrp : busReadPosStep (fun _ => true) (fun _ => Except.ok (some 4000)) 1 (freshBus true [])
      = ((busReadPosStep (fun _ => true) (fun _ => Except.ok (some 4000)) 1
          (freshBus true [])).1, Except.ok (some (4000 : ℤ))) := rfl
  have hdue : ¬ ((5 : ℚ) < 0 - svC7.lastStatusUpdate) := by
    norm_num [svC7, initServoState]
  rw [updateStatusTimer_notDue cfgC7 _ _ 0 svC7 (freshBus true []) _ (some 4000) hrp hdue]
  refine ⟨by decide, by decide, by decide⟩

/-- Positions accepted by `_validate_position` lie within the configured
limits. -/
theorem validatePosition_bounds (cfg : ServoConfig) (p q : ℤ)
    (h : ST3215Servo.validatePosition cfg p = Except.ok q) :
    q = p ∧ cfg.positionMin ≤ q ∧ q ≤ cfg.positionMax := by
  unfold ST3215Servo.validatePosition at h
  by_cases h1 : p < cfg.positionMin
  · simp [h1] at h
  · by_cases h2 : p > cfg.positionMax
    · simp [h1, h2] at h
    · simp [h1, h2] at h
      subst h
      omega

/-- C7 amended: the validation-guarded mutators `move_to` and `set_position`
do preserve the range invariant on `current_position` and `target_position`
(whatever their outcome); positions observed from the device (poll tick,
connect-phase read, `stop`) are stored without validation and may leave the
range, as the counterexample shows. -/
theorem C7_amended_validated_mutators (cfg : ServoConfig) (connectOk : ℕ → Bool)
    (moveOp : ℕ → Except String Unit) (p : ℤ) (speed accel : Option ℤ)
    (sv : ServoState) (bus : BusState) (hs : posInvariant cfg sv = true) :
    posInvariant cfg (ST3215Servo.moveTo cfg connectOk moveOp p speed accel sv bus).1 = true ∧
    posInvariant cfg (ST3215Servo.setPosition cfg p sv).1 = true := by
  have hs' := hs
  simp only [posInvariant, Bool.and_eq_true] at hs'
  obtain ⟨hs1, hs2⟩ := hs'
  constructor
  · cases hv : ST3215Servo.validatePosition cfg p with
    | error msg =>
      simp only [ST3215Servo.moveTo, hv]
      exact hs
    | ok q =>
      obtain ⟨hqp, hq1, hq2⟩ := validatePosition_bounds cfg p q hv
      simp only [ST3215Servo.moveTo, hv]
      cases htc : ST3215Servo.checkTemperature cfg sv.cachedTemperature with
      | fatal => exact hs
      | noop =>
        rcases hbus : ST3215Bus.moveTo connectOk moveOp cfg.servoId q
            (ST3215Servo.resolveSpeed cfg speed) (ST3215Servo.resolveAccel cfg accel) bus
          with ⟨b1, r⟩
        cases r with
        | ok u =>
          dsimp only
          simp only [posInvariant, Bool.and_eq_true]
          exact ⟨hs1, by simp [posInBounds, hq1, hq2]⟩
        | error e =>
          dsimp only
          exact hs
      | warning =>
        rcases hbus : ST3215Bus.moveTo connectOk moveOp cfg.servoId q
            (ST3215Servo.resolveSpeed cfg speed) (ST3215Servo.resolveAccel cfg accel) bus
          with ⟨b1, r⟩
        cases r with
        | ok u =>
          dsimp only
          simp only [posInvariant, Bool.and_eq_true]
          exact ⟨hs1, by simp [posInBounds, hq1, hq2]⟩
        | error e =>
          dsimp only
          exact hs
  · cases hv : ST3215Servo.validatePosition cfg p with
    | error msg =>
      simp only [ST3215Servo.setPosition, hv]
      exact hs
    | ok q =>
      obtain ⟨hqp, hq1, hq2⟩ := validatePosition_bounds cfg p q hv
      simp only [ST3215Servo.setPosition, hv]
      simp only [posInvariant, Bool.and_eq_true]
      constructor <;> simp [posInBounds, hq1, hq2]

theorem C7_amended_validated_mutators_witness :
    posInvariant cfgStd initServoState = true ∧
    (posInvariant cfgStd
      (ST3215Servo.moveTo cfgStd (fun _ => true) (fun _ => Except.ok ()) 2048 none none
        initServoState (freshBus true [])).1 = true ∧
     posInvariant cfgStd (ST3215Servo.setPosition cfgStd 2048 initServoState).1 = true) :=
  ⟨by decide,
    C7_amended_validated_mutators cfgStd (fun _ => true) (fun _ => Except.ok ()) 2048 none none
      initServoState (freshBus true []) (by decide)⟩

/-- C8: one poll tick of `_update_status_timer`: (1) it always returns
`now + status_update_interval` as its next wake time, whatever happens
inside; (2) an exception from the position read is caught and recorded into
`last_error`, everything else unchanged (and by (1) the task is still
rescheduled); (3) a successful read of `p` with a target set (telemetry not
due) updates `current_position` and recomputes `is_moving` as
`|p - target| > 5`, clearing `last_error`; (4) with no target set only
`current_position` is updated; (5) when the telemetry refresh is due and
both reads succeed, the caches and `last_status_update` are refreshed and
`last_error` is cleared. -/
theorem C8_poll_tick (cfg : ServoConfig)
    (readStatus : BusState → BusState × Except String (Option ℤ × Option ℤ × Option ℤ)) :
    (∀ readPos (now : ℚ) sv bus,
      (ST3215Servo.updateStatusTimer cfg readPos readStatus now sv bus).2.2
        = now + cfg.statusUpdateInterval) ∧
    (∀ readPos (now : ℚ) sv bus bus1 e, readPos bus = (bus1, Except.error e) →
      ST3215Servo.updateStatusTimer cfg readPos readStatus now sv bus
        = ({ sv with lastError := some e }, bus1, now + cfg.statusUpdateInterval)) ∧
    (∀ readPos (now : ℚ) sv bus bus1 (p tgt : ℤ),
      readPos bus = (bus1, Except.ok (some p)) →
      sv.targetPosition = some tgt → ¬ (5 < now - sv.lastStatusUpdate) →
      (ST3215Servo.updateStatusTimer cfg readPos readStatus now sv bus).1
        = { sv with currentPosition := some p, isMoving := decide (5 < |p - tgt|), lastError := none }) ∧
    (∀ readPos (now : ℚ) sv bus bus1 (p : ℤ),
      readPos bus = (bus1, Except.ok (some p)) →
      sv.targetPosition = none → ¬ (5 < now - sv.lastStatusUpdate) →
      (ST3215Servo.updateStatusTimer cfg readPos readStatus now sv bus).1
        = { sv with currentPosition := some p, lastError := none }) ∧
    (∀ readPos (now : ℚ) sv bus bus1 bus2 posOpt (t v c : Option ℤ),
      readPos bus = (bus1, Except.ok posOpt) →
      5 < now - sv.lastStatusUpdate →
      readStatus bus1 = (bus2, Except.ok (t, v, c)) →
      (ST3215Servo.updateStatusTimer cfg readPos readStatus now sv bus).1.lastError = none ∧
      (ST3215Servo.updateStatusTimer cfg readPos readStatus now sv bus).1.cachedTemperature
        = t ∧
      (ST3215Servo.updateStatusTimer cfg readPos readStatus now sv bus).1.cachedVoltage = v ∧
      (ST3215Servo.updateStatusTimer cfg readPos readStatus now sv bus).1.cachedCurrent = c ∧
      (ST3215Servo.updateStatusTimer cfg readPos readStatus now sv bus).1.lastStatusUpdate
        = now) := by
  refine ⟨?_, ?_, ?_, ?_, ?_⟩
  · intro readPos now sv bus
    unfold ST3215Servo.updateStatusTimer
    rcases hrp : readPos bus with ⟨b1, r⟩
    cases r with
    | error e => rfl
    | ok posOpt =>
      dsimp only
      by_cases hdue : 5 < now - (ST3215Servo.pollPosUpdate sv posOpt).lastStatusUpdate
      · rw [if_pos hdue]
        rcases hrs : readStatus b1 with ⟨b2, r2⟩
        cases r2 with
        | error e => rfl
        | ok val =>
          obtain ⟨t, v, c⟩ := val
          rfl
      · rw [if_neg hdue]
  · intro readPos now sv bus bus1 e hrp
    exact updateStatusTimer_error cfg readPos readStatus now sv bus bus1 e hrp
  · intro readPos now sv bus bus1 p tgt hrp htp hdue
    rw [updateStatusTimer_notDue cfg readPos readStatus now sv bus bus1 (some p) hrp hdue]
    have hpp : ST3215Servo.pollPosUpdate sv (some p)
        = { sv with currentPosition := some p, isMoving := decide (5 < |p - tgt|) } := by
      unfold ST3215Servo.pollPosUpdate
      dsimp only
      rw [htp]
    rw [hpp]
  · intro readPos now sv bus bus1 p hrp htp hdue
    rw [updateStatusTimer_notDue cfg readPos readStatus now sv bus bus1 (some p) hrp hdue]
    have hpp : ST3215Servo.pollPosUpdate sv (some p)
        = { sv with currentPosition := some p } := by
      unfold ST3215Servo.pollPosUpdate
      dsimp only
      rw [htp]
    rw [hpp]
  · intro readPos now sv bus bus1 bus2 posOpt t v c hrp hdue hrs
    rw [updateStatusTimer_due cfg readPos readStatus now sv bus bus1 bus2 posOpt t v c hrp
      hdue hrs]
    exact ⟨rfl, rfl, rfl, rfl, rfl⟩

theorem C8_poll_tick_witness :
    ((ST3215Servo.updateStatusTimer cfgStd (fun b => (b, Except.ok (some 2048)))
        (fun b => (b, Except.ok (none, none, none))) 0 initServoState
        (freshBus true [])).2.2 = 0 + cfgStd.statusUpdateInterval) ∧
    (ST3215Servo.updateStatusTimer cfgStd (fun b => (b, Except.error "read blew up"))
        (fun b => (b, Except.ok (none, none, none))) 0 initServoState (freshBus true [])
      = ({ initServoState with lastError := some "read blew up" }, freshBus true [],
          0 + cfgStd.statusUpdateInterval)) ∧
    ((ST3215Servo.updateStatusTimer cfgStd (fun b => (b, Except.ok (some 4000)))
        (fun b => (b, Except.ok (none, none, none))) 0 svC7 (freshBus true [])).1
      = { svC7 with currentPosition := some 4000, isMoving := decide (5 < |(4000 : ℤ) - 2048|), lastError := none }) ∧
    ((ST3215Servo.updateStatusTimer cfgStd (fun b => (b, Except.ok (some 2048)))
        (fun b => (b, Except.ok (none, none, none))) 0 initServoState (freshBus true [])).1
      = { initServoState with currentPosition := some 2048, lastError := none }) ∧
    ((ST3215Servo.updateStatusTimer cfgStd (fun b => (b, Except.ok (some 2048)))
        (fun b => (b, Except.ok (some 40, some 12, some 100))) 10 initServoState
        (freshBus true [])).1.lastError = none ∧
     (ST3215Servo.updateStatusTimer cfgStd (fun b => (b, Except.ok (some 2048)))
        (fun b => (b, Except.ok (some 40, some 12, some 100))) 10 initServoState
        (freshBus true [])).1.cachedTemperature = some 40 ∧
     (ST3215Servo.updateStatusTimer cfgStd (fun b => (b, Except.ok (some 2048)))
        (fun b => (b, Except.ok (some 40, some 12, some 100))) 10 initServoState
        (freshBus true [])).1.cachedVoltage = some 12 ∧
     (ST3215Servo.updateStatusTimer cfgStd (fun b => (b, Except.ok (some 2048)))
        (fun b => (b, Except.ok (some 40, some 12, some 100))) 10 initServoState
        (freshBus true [])).1.cachedCurrent = some 100 ∧
     (ST3215Servo.updateStatusTimer cfgStd (fun b => (b, Except.ok (some 2048)))
        (fun b => (b, Except.ok (some 40, some 12, some 100))) 10 initServoState
        (freshBus true [])).1.lastStatusUpdate = 10) :=
  ⟨(C8_poll_tick cfgStd (fun b => (b, Except.ok (none, none, none)))).1
      (fun b => (b, Except.ok (some 2048))) 0 initServoState (freshBus true []),
    (C8_poll_tick cfgStd (fun b => (b, Except.ok (none, none, none)))).2.1
      (fun b => (b, Except.error "read blew up")) 0 initServoState (freshBus true [])
      (freshBus true []) "read blew up" rfl,
    (C8_poll_tick cfgStd (fun b => (b, Except.ok (none, none, none)))).2.2.1
      (fun b => (b, Except.ok (some 4000))) 0 svC7 (freshBus true []) (freshBus true [])
      4000 2048 rfl rfl (by norm_num [svC7, initServoState]),
    (C8_poll_tick cfgStd (fun b => (b, Except.ok (none, none, none)))).2.2.2.1
      (fun b => (b, Except.ok (some 2048))) 0 initServoState (freshBus true [])
      (freshBus true []) 2048 rfl rfl (by norm_num [initServoState]),
    (C8_poll_tick cfgStd (fun b => (b, Except.ok (some 40, some 12, some 100)))).2.2.2.2
      (fun b => (b, Except.ok (some 2048))) 10 initServoState (freshBus true [])
      (freshBus true []) (freshBus true []) (some 2048) (some 40) (some 12) (some 100)
      rfl (by norm_num [initServoState]) rfl⟩

theorem countMoveCmds_append (a b : List (BusEvent × Bool)) :
    countMoveCmds (a ++ b) = countMoveCmds a + countMoveCmds b := by
  simp [countMoveCmds, List.filter_append]

/-- No element of a read-retry frame list is a motion command. -/
theorem countMoveCmds_readFrame (servoId : ℕ) (tl : List (BusEvent × Bool))
    (h : ∀ e ∈ tl, e = (BusEvent.readPosCmd servoId, false) ∨
      e = (BusEvent.connectDev, true) ∨ e = (BusEvent.disconnectDev, true) ∨
      e = (BusEvent.sleep retryBackoff, false)) :
    countMoveCmds tl = 0 := by
  simp only [countMoveCmds, List.length_eq_zero, List.filter_eq_nil_iff]
  intro e he
  rcases h e he with rfl | rfl | rfl | rfl <;> simp [isMoveCmdEvent]

/-- The modelled `read_position` never emits a motion command (with the lock initially
free, so the frame lemma applies). -/
theorem readPosition_no_moveCmd (connectOk : ℕ → Bool) (op : ℕ → Except String (Option ℤ))
    (servoId : ℕ) (s : BusState) (h0 : s.lockDepth = 0) :
    countMoveCmds (ST3215Bus.readPosition connectOk op servoId s).1.trace
      = countMoveCmds s.trace := by
  obtain ⟨tl, h1, h2, h3, h4⟩ := retryAux_frame connectOk
    (BusEvent.readPosCmd servoId) op "ReadPosition" 3 3 0 s h0
  have hzero := countMoveCmds_readFrame servoId tl h4
  rcases hew : ST3215Bus.executeWithRetry connectOk (BusEvent.readPosCmd servoId) op
      "ReadPosition" 3 s with ⟨s1, r⟩
  have heq : ST3215Bus.executeWithRetryAux connectOk (BusEvent.readPosCmd servoId) op
      "ReadPosition" 3 0 3 s = (s1, r) := hew
  rw [heq] at h1 h2
  dsimp only at h1 h2
  have hcount1 : countMoveCmds s1.trace = countMoveCmds s.trace := by
    rw [h1, countMoveCmds_append, hzero]
    rfl
  unfold ST3215Bus.readPosition
  rw [hew]
  cases r with
  | ok v =>
    match v with
    | some (some pos) =>
      dsimp only
      have hemit : (s1.emit (BusEvent.cacheWrite servoId pos)).trace
          = s1.trace ++ [(BusEvent.cacheWrite servoId pos, decide (0 < s1.lockDepth))] := rfl
      rw [hemit, countMoveCmds_append, hcount1]
      rfl
    | some none =>
      dsimp only
      exact hcount1
    | none =>
      dsimp only
      exact hcount1
  | error e =>
    dsimp only
    exact hcount1

/-- C6: `stop` with a position read that returns a value `pos` issues a move
to `pos` with speed 0 and accel 0, sets `current_position` and
`target_position` to `pos`, and clears `is_moving`; with a position read
that yields no value it is a silent no-op: the tracked servo state is
returned unchanged, the call succeeds, and no motion command is issued on
the bus. -/
theorem C6_stop (cfg : ServoConfig) (readOp : ℕ → Except String (Option ℤ))
    (moveOp : ℕ → Except String Unit) (sv : ServoState) (bus bus1 : BusState) :
    (∀ pos : ℤ,
      ST3215Bus.readPosition (fun _ => true) readOp cfg.servoId bus = (bus1, some pos) →
      moveOp 0 = Except.ok () →
      (ST3215Servo.stop cfg (fun _ => true) readOp moveOp sv bus).2.2 = Except.ok () ∧
      (ST3215Servo.stop cfg (fun _ => true) readOp moveOp sv bus).1.currentPosition
        = some pos ∧
      (ST3215Servo.stop cfg (fun _ => true) readOp moveOp sv bus).1.targetPosition
        = some pos ∧
      (ST3215Servo.stop cfg (fun _ => true) readOp moveOp sv bus).1.isMoving = false ∧
      BusEvent.moveCmd cfg.servoId pos 0 0 ∈
        (ST3215Servo.stop cfg (fun _ => true) readOp moveOp sv bus).2.1.trace.map Prod.fst) ∧
    (bus.lockDepth = 0 →
      ST3215Bus.readPosition (fun _ => true) readOp cfg.servoId bus = (bus1, none) →
      ST3215Servo.stop cfg (fun _ => true) readOp moveOp sv bus = (sv, bus1, Except.ok ()) ∧
      countMoveCmds bus1.trace = countMoveCmds bus.trace) := by
  constructor
  · intro pos hread hop
    obtain ⟨h1, h2, h3⟩ := moveTo_healthy moveOp hop cfg.servoId pos 0 0 bus1
    rcases hbus : ST3215Bus.moveTo (fun _ => true) moveOp cfg.servoId pos 0 0 bus1 with ⟨b2, r⟩
    rw [hbus] at h1 h2 h3
    dsimp only at h1 h2 h3
    subst h1
    unfold ST3215Servo.stop
    rw [hread]
    dsimp only
    rw [hbus]
    exact ⟨rfl, rfl, rfl, rfl, h3⟩
  · intro h0 hread
    constructor
    · unfold ST3215Servo.stop
      rw [hread]
    · have hb1 : (ST3215Bus.readPosition (fun _ => true) readOp cfg.servoId bus).1 = bus1 := by
        rw [hread]
      rw [← hb1]
      exact readPosition_no_moveCmd (fun _ => true) readOp cfg.servoId bus h0

theorem C6_stop_witness :
    (ST3215Bus.readPosition (fun _ => true) (fun _ => Except.ok (some 1500)) cfgStd.servoId
        (freshBus true [])
      = ((ST3215Bus.readPosition (fun _ => true) (fun _ => Except.ok (some 1500)) cfgStd.servoId
          (freshBus true [])).1, some 1500) ∧
      (ST3215Servo.stop cfgStd (fun _ => true) (fun _ => Except.ok (some 1500))
        (fun _ => Except.ok ()) initServoState (freshBus true [])).2.2 = Except.ok () ∧
      (ST3215Servo.stop cfgStd (fun _ => true) (fun _ => Except.ok (some 1500))
        (fun _ => Except.ok ()) initServoState (freshBus true [])).1.currentPosition
        = some 1500 ∧
      (ST3215Servo.stop cfgStd (fun _ => true) (fun _ => Except.ok (some 1500))
        (fun _ => Except.ok ()) initServoState (freshBus true [])).1.targetPosition
        = some 1500 ∧
      (ST3215Servo.stop cfgStd (fun _ => true) (fun _ => Except.ok (some 1500))
        (fun _ => Except.ok ()) initServoState (freshBus true [])).1.isMoving = false ∧
      BusEvent.moveCmd cfgStd.servoId 1500 0 0 ∈
        (ST3215Servo.stop cfgStd (fun _ => true) (fun _ => Except.ok (some 1500))
          (fun _ => Except.ok ()) initServoState (freshBus true [])).2.1.trace.map Prod.fst) ∧
    ((freshBus true []).lockDepth = 0 ∧
      ST3215Bus.readPosition (fun _ => true) (fun _ => Except.ok none) cfgStd.servoId
        (freshBus true [])
      = ((ST3215Bus.readPosition (fun _ => true) (fun _ => Except.ok none) cfgStd.servoId
          (freshBus true [])).1, none) ∧
      ST3215Servo.stop cfgStd (fun _ => true) (fun _ => Except.ok none) (fun _ => Except.ok ())
        initServoState (freshBus true [])
      = (initServoState,
          (ST3215Bus.readPosition (fun _ => true) (fun _ => Except.ok none) cfgStd.servoId
            (freshBus true [])).1, Except.ok ()) ∧
      countMoveCmds (ST3215Bus.readPosition (fun _ => true) (fun _ => Except.ok none)
        cfgStd.servoId (freshBus true [])).1.trace = countMoveCmds (freshBus true []).trace) :=
  ⟨(fun h => ⟨h, (C6_stop cfgStd (fun _ => Except.ok (some 1500)) (fun _ => Except.ok ())
      initServoState (freshBus true []) _).1 1500 h rfl⟩) (by decide),
    (fun h => ⟨rfl, h, (C6_stop cfgStd (fun _ => Except.ok none) (fun _ => Except.ok ())
      initServoState (freshBus true []) _).2 rfl h⟩) (by decide)⟩

theorem C9_amended_locking_witness :
    (freshBus true []).lockDepth = 0 ∧ (freshBus true []).trace = [] ∧
    (devHeld (ST3215Bus.connect (fun _ => true) (freshBus true [])).1.trace = true ∧
     devHeld (ST3215Bus.disconnect (freshBus true [])).trace = true ∧
     (∀ (op : ℕ → Except String Unit) (servoId : ℕ) (p sp ac : ℤ),
       devHeld (ST3215Bus.moveTo (fun _ => true) op servoId p sp ac
         (freshBus true [])).1.trace = true ∧
       primsUnheld (ST3215Bus.moveTo (fun _ => true) op servoId p sp ac
         (freshBus true [])).1.trace = true) ∧
     (∀ (op : ℕ → Except String (Option ℤ)) (servoId : ℕ),
       devHeld (ST3215Bus.readPosition (fun _ => true) op servoId
         (freshBus true [])).1.trace = true ∧
       primsUnheld (ST3215Bus.readPosition (fun _ => true) op servoId
         (freshBus true [])).1.trace = true)) :=
  ⟨rfl, rfl, C9_amended_locking (fun _ => true) (freshBus true []) rfl rfl⟩

/-- C9 counterexample: a single healthy `ST3215Bus.move_to` on a connected
bus performs its device primitive call and its position-cache write with the
instance lock NOT held — refuting "all device I/O and all cache mutation
happen under the lock". -/
theorem C9_counterexample :
    allBusEffectsHeld ((ST3215Bus.moveTo (fun _ => true) (fun _ => Except.ok ()) 1 1000 100 50
      (freshBus true [])).1.trace) = false := by
  decide
